import Mathlib

set_option maxRecDepth 100000

/-!
Verification of the natural-language-to-SQL safety and execution pipeline of
the f1-lakehouse repository.  The definitions below are a shallow embedding of
`src/ai/rag_api/app.py` and `src/ai/rag_api/main.py`: the two SQL guards
(`ensure_safe_sql`, `extract_sql`), the query executor, the schema resolvers,
the model clients, the response extractor, and the chart-hint heuristics.
Python string operations are modelled on `List Char`; the `re` module's
case-insensitive matches are modelled by lowering the text first (ASCII
lowering, which agrees with Python on the SQL text handled here); the external
database engine and the model endpoint are modelled as explicit parameters.
-/

/-- Python ASCII whitespace, the characters `str.strip()` removes from the SQL
text handled here. -/
def pyIsSpace (c : Char) : Bool :=
  c == ' ' || c == '\t' || c == '\n' || c == '\r' || c == '\x0b' || c == '\x0c'

/-- ASCII lowercasing of one character, as Python `str.lower()` acts on the
ASCII text handled by the pipeline. -/
def lowChar (c : Char) : Char :=
  if c = 'A' then 'a' else if c = 'B' then 'b' else if c = 'C' then 'c'
  else if c = 'D' then 'd' else if c = 'E' then 'e' else if c = 'F' then 'f'
  else if c = 'G' then 'g' else if c = 'H' then 'h' else if c = 'I' then 'i'
  else if c = 'J' then 'j' else if c = 'K' then 'k' else if c = 'L' then 'l'
  else if c = 'M' then 'm' else if c = 'N' then 'n' else if c = 'O' then 'o'
  else if c = 'P' then 'p' else if c = 'Q' then 'q' else if c = 'R' then 'r'
  else if c = 'S' then 's' else if c = 'T' then 't' else if c = 'U' then 'u'
  else if c = 'V' then 'v' else if c = 'W' then 'w' else if c = 'X' then 'x'
  else if c = 'Y' then 'y' else if c = 'Z' then 'z' else c

/-- Python `str.lower()` on the whole string. -/
def strLower (s : String) : String := String.mk (s.data.map lowChar)

/-- Drop the trailing run of characters satisfying `p` (Python `str.rstrip`). -/
def rstripList (p : Char → Bool) : List Char → List Char
  | [] => []
  | c :: cs =>
    if (rstripList p cs).isEmpty && p c then [] else c :: rstripList p cs

/-- Python `str.strip()`: remove leading and trailing whitespace. -/
def pyStrip (s : String) : String :=
  String.mk (rstripList pyIsSpace (List.dropWhile pyIsSpace s.data))

/-- Python `str.rstrip(";")`: remove trailing semicolons. -/
def rstripSemi (s : String) : String :=
  String.mk (rstripList (fun c => c == ';') s.data)

/-- Bool test that the first list is an initial segment of the second. -/
def listStarts : List Char → List Char → Bool
  | [], _ => true
  | _ :: _, [] => false
  | p :: ps, c :: cs => p == c && listStarts ps cs

/-- Python `str.startswith`. -/
def pyStartsWith (s pre : String) : Bool := listStarts pre.data s.data

/-- Substring occurrence test on character lists. -/
def hasSubList (needle : List Char) : List Char → Bool
  | [] => listStarts needle []
  | c :: cs => listStarts needle (c :: cs) || hasSubList needle cs

/-- Python `needle in hay` on strings (plain substring containment). -/
def pyIn (needle hay : String) : Bool := hasSubList needle.data hay.data

/-- Word character for the `re` module's `\b` boundaries (`[A-Za-z0-9_]` on the
ASCII text handled here). -/
def isWordChar (c : Char) : Bool := c.isAlpha || c.isDigit || c == '_'

/-- Boundary condition to the left of a match: start of text or a non-word
character. -/
def boundaryBefore : Option Char → Bool
  | none => true
  | some c => !(isWordChar c)

/-- Boundary condition to the right of a match: end of text or a non-word
character. -/
def boundaryAfterOk : List Char → Bool
  | [] => true
  | c :: _ => !(isWordChar c)

/-- Occurrence of `needle` in the text as a `\b`-delimited word, tracking the
previous character. -/
def hasWordAux (needle : List Char) : Option Char → List Char → Bool
  | _, [] => false
  | prev, c :: cs =>
    (boundaryBefore prev && listStarts needle (c :: cs)
      && boundaryAfterOk (List.drop needle.length (c :: cs)))
    || hasWordAux needle (some c) cs

/-- Model of `re.search(r"\b<needle>\b", hay)` after both sides are lowered
(the source passes `re.I`). -/
def hasWordStr (needle hay : String) : Bool := hasWordAux needle.data none hay.data

/-- Model of `re.match(r"^\s*select\b", u)` on an already lowered string. -/
def matchSelectLead (u : String) : Bool :=
  let v := List.dropWhile pyIsSpace u.data
  listStarts "select".data v && boundaryAfterOk (List.drop 6 v)

/-- A FastAPI `HTTPException`: status code and human-readable detail. -/
structure ApiError where
  status : Nat
  detail : String
deriving DecidableEq

/-- Rejection raised by `ensure_safe_sql` on an empty candidate
(app.py line 169). -/
def noSqlError : ApiError := ⟨400, "AI did not provide SQL."⟩

/-- Rejection raised by `ensure_safe_sql` when the statement does not start
with `select` (app.py line 174) — the spec's `NonSelectStatement`. -/
def nonSelectError : ApiError := ⟨400, "Only SELECT statements are allowed."⟩

/-- Rejection raised by `ensure_safe_sql` on a forbidden-keyword hit
(app.py line 176) — the spec's `MutatingKeywordDetected`. -/
def mutatingError : ApiError := ⟨400, "Statement appears to modify data; rejecting."⟩

/-- Rejection raised by `extract_sql` on a forbidden-keyword hit
(main.py line 83). -/
def mainKeywordError : ApiError := ⟨400, "Only SELECT queries are allowed."⟩

/-- Rejection raised by `extract_sql` when the text does not match
`^\s*select\b` (main.py line 85). -/
def mainNonSelectError : ApiError := ⟨400, "Model did not return a SELECT query."⟩

/-- The `/ask` failure when a layer schema is missing (app.py line 197) — the
spec's `SchemaUnavailable`. -/
def schemaUnavailableError : ApiError :=
  ⟨400, "Silver/Gold schemas not found. Run dbt build first."⟩

/-- The forbidden-keyword tuple of `ensure_safe_sql` (app.py line 172). -/
def appForbidden : List String :=
  ["insert", "update", "delete", "drop", "alter", "create", "truncate"]

/-- The forbidden-keyword alternation of `extract_sql` (main.py line 82);
note that `truncate` is absent. -/
def mainForbidden : List String :=
  ["insert", "update", "delete", "drop", "alter", "create"]

/-- Default of the `AI_MAX_ROWS` environment variable (app.py line 18). -/
def AI_MAX_ROWS : Nat := 200

/-- The SQL guard of app.py (`ensure_safe_sql`, lines 167-177), with the
module-level `AI_MAX_ROWS` exposed as the `maxRows` parameter.  The source's
locals `stmt = sql.strip().rstrip(";")` and `lower = stmt.lower()` are
inlined. -/
def ensure_safe_sql (maxRows : Nat) (sql : String) : Except ApiError String :=
  if sql = "" then Except.error noSqlError
  else if pyStartsWith (strLower (rstripSemi (pyStrip sql))) "select" = false then
    Except.error nonSelectError
  else if appForbidden.any (fun k => pyIn k (strLower (rstripSemi (pyStrip sql)))) = true then
    Except.error mutatingError
  else
    Except.ok ("SELECT * FROM (" ++ rstripSemi (pyStrip sql) ++ ") AS safe_view LIMIT "
      ++ toString maxRows)

/-- The SQL guard of main.py (`extract_sql`, lines 81-88): the validation
applied to the candidate text after the ```sql fence extraction of line 80
(the input here is the fenced-block content, or the whole model output when no
fence is present).  The case-insensitive regex checks are modelled on the
lowered text. -/
def extract_sql_guard (candidate : String) : Except ApiError String :=
  if mainForbidden.any (fun k => hasWordStr k (strLower (rstripSemi (pyStrip candidate)))) = true then
    Except.error mainKeywordError
  else if matchSelectLead (strLower (rstripSemi (pyStrip candidate))) = false then
    Except.error mainNonSelectError
  else if hasWordStr "limit" (strLower (rstripSemi (pyStrip candidate))) = false then
    Except.ok (rstripSemi (pyStrip candidate) ++ " LIMIT 200")
  else
    Except.ok (rstripSemi (pyStrip candidate))

/-- Rows of a query result (one list of column values per row). -/
def QRow : Type := List String

/-- Semantics of the guard's wrapper supplied by the database collaborator
(spec section 6, "standard SQL execution"): evaluating
`SELECT * FROM (inner) AS safe_view LIMIT n` over any engine yields at most
the first `n` rows of the inner query's result. -/
def evalLimitWrap (engine : String → List QRow) (inner : String) (n : Nat) : List QRow :=
  (engine inner).take n

/-- Is an `Except` value an error? -/
def isErr {ε α : Type} : Except ε α → Bool
  | Except.error _ => true
  | Except.ok _ => false

/-- Default warehouse path (the `F1_WAREHOUSE` environment default in both
API variants). -/
def WAREHOUSE : String := "/opt/data/warehouse/f1.duckdb"

/-- Arguments of a `duckdb.connect` call. -/
structure ConnectConfig where
  path : String
  readOnly : Bool
deriving DecidableEq

/-- The connection opened by main.py's `connect_ro` (line 16):
`duckdb.connect(WAREHOUSE, read_only=False)` — deliberately writable, per the
source comment "DuckDB needs write access for temp ops". -/
def connect_ro_config : ConnectConfig := ⟨WAREHOUSE, false⟩

/-- Trace of one `execute_sql` call: the connection it opened, the outcome,
and whether the session was closed before returning. -/
structure ExecTrace (Row : Type) where
  conn : ConnectConfig
  result : Except ApiError (List Row)
  sessionClosed : Bool

/-- The query executor of app.py (`execute_sql`, lines 180-187).  `engine`
models the DuckDB engine on the warehouse contents (error = `duckdb.Error`
diagnostic).  The `finally: con.close()` makes the session closed on both the
return path and the raise path. -/
def execute_sql {Row : Type} (engine : String → Except String (List Row))
    (sql : String) : ExecTrace Row :=
  match engine sql with
  | Except.ok rows => ⟨⟨WAREHOUSE, true⟩, Except.ok rows, true⟩
  | Except.error msg =>
    ⟨⟨WAREHOUSE, true⟩,
     Except.error ⟨400, "DuckDB failed to execute the AI-generated SQL: " ++ msg⟩, true⟩

/-- The guard-then-execute step of app.py's `/ask` handler (lines 207-208):
`safe_sql = ensure_safe_sql(...)` then `df = execute_sql(safe_sql)`, with a
guard rejection propagating before any execution.  The Bool records whether
the executor was invoked. -/
def run_ask_sql {Row : Type} (engine : String → Except String (List Row))
    (maxRows : Nat) (candidate : String) : Except ApiError (List Row) × Bool :=
  match ensure_safe_sql maxRows candidate with
  | Except.error e => (Except.error e, false)
  | Except.ok g => ((execute_sql engine g).result, true)

/-- The schema resolver of app.py (`resolve_schema`, lines 63-74): probe the
catalog for `main_<base>` first, then `<base>`, returning the first name
present; `catalog` is the set of schema names in
`information_schema.schemata` (the probes are total — a query on an absent
schema returns no row rather than raising). -/
def resolve_schema (catalog : List String) (base : String) : Option String :=
  if catalog.contains ("main_" ++ base) = true then some ("main_" ++ base)
  else if catalog.contains base = true then some base
  else none

/-- The schema check of app.py's `/ask` handler (lines 194-197): resolve both
layers and fail with the `SchemaUnavailable` message when either is missing. -/
def ask_schema_check (catalog : List String) : Except ApiError (String × String) :=
  match resolve_schema catalog "silver", resolve_schema catalog "gold" with
  | some s, some g => Except.ok (s, g)
  | some _, none => Except.error schemaUnavailableError
  | none, some _ => Except.error schemaUnavailableError
  | none, none => Except.error schemaUnavailableError

/-- Models `detect_schema_prefix` (main.py lines 18-26).  The source probes
the two candidate schema pairs inside try/except and returns the first pair
whose two probes do not raise, falling back to `("main_silver", "main_gold")`
after the loop.  `raises` says whether the catalog probe for a schema name
raises; DuckDB `information_schema` probes on an absent schema return an
empty result rather than raising (the fetched row is discarded by the
source), so in normal operation `raises` is constantly false. -/
def detect_schema_prefix (raises : String → Bool) : String × String :=
  if raises "main_silver" = false ∧ raises "main_gold" = false then
    ("main_silver", "main_gold")
  else if raises "silver" = false ∧ raises "gold" = false then ("silver", "gold")
  else ("main_silver", "main_gold")

/-- JSON values, as returned by the Python `json` library on the payloads the
pipeline handles (numeric literals are modelled as integers; the pipeline
never inspects fractional values). -/
inductive Json where
  | str (s : String)
  | num (n : Int)
  | bool (b : Bool)
  | null
  | obj (fields : List (String × Json))
  | arr (items : List Json)

/-- Opening brace character. -/
def obrace : Char := Char.ofNat 123

/-- Closing brace character. -/
def cbrace : Char := Char.ofNat 125

/-- JSON insignificant whitespace. -/
def jWs (c : Char) : Bool := c == ' ' || c == '\n' || c == '\t' || c == '\r'

/-- Decode one string escape character. -/
def escChar (e : Char) : Option Char :=
  if e = '"' then some '"'
  else if e = '\\' then some '\\'
  else if e = '/' then some '/'
  else if e = 'n' then some '\n'
  else if e = 't' then some '\t'
  else if e = 'r' then some '\r'
  else none

/-- Scan a JSON string body up to the closing quote, decoding the escapes the
pipeline's payloads use. -/
def jStrAux : List Char → Option (List Char × List Char)
  | [] => none
  | ['\\'] => none
  | '\\' :: e :: rest =>
    match escChar e with
    | some c => (jStrAux rest).map (fun p => (c :: p.1, p.2))
    | none => none
  | c :: rest =>
    if c = '"' then some ([], rest)
    else (jStrAux rest).map (fun p => (c :: p.1, p.2))

/-- Digit run to a natural number. -/
def digitsVal (l : List Char) : Nat :=
  l.foldl (fun n c => 10 * n + (c.toNat - 48)) 0

/-- Parse a JSON integer literal. -/
def jNum (cs : List Char) : Option (Json × List Char) :=
  match cs with
  | '-' :: rest =>
    let p := rest.span Char.isDigit
    if p.1.isEmpty then none else some (Json.num (-(digitsVal p.1 : Int)), p.2)
  | _ =>
    let p := cs.span Char.isDigit
    if p.1.isEmpty then none else some (Json.num (digitsVal p.1 : Int), p.2)

mutual

/-- Fuel-bounded recursive-descent JSON value parser, modelling the Python
`json` library on the fragment the pipeline's payloads occupy. -/
def jVal : Nat → List Char → Option (Json × List Char)
  | 0, _ => none
  | Nat.succ f, cs0 =>
    let cs := List.dropWhile jWs cs0
    match cs with
    | [] => none
    | c :: rest =>
      if c = '"' then (jStrAux rest).map (fun p => (Json.str (String.mk p.1), p.2))
      else if c = obrace then
        let rest' := List.dropWhile jWs rest
        match rest' with
        | [] => none
        | c2 :: rest2 =>
          if c2 = cbrace then some (Json.obj [], rest2)
          else (jFields f rest').map (fun p => (Json.obj p.1, p.2))
      else if c = '[' then
        let rest' := List.dropWhile jWs rest
        match rest' with
        | [] => none
        | c2 :: rest2 =>
          if c2 = ']' then some (Json.arr [], rest2)
          else (jItems f rest').map (fun p => (Json.arr p.1, p.2))
      else if listStarts ("true".data) cs then some (Json.bool true, List.drop 4 cs)
      else if listStarts ("false".data) cs then some (Json.bool false, List.drop 5 cs)
      else if listStarts ("null".data) cs then some (Json.null, List.drop 4 cs)
      else jNum cs

/-- Parse the members of a JSON object after its opening brace. -/
def jFields : Nat → List Char → Option (List (String × Json) × List Char)
  | 0, _ => none
  | Nat.succ f, cs0 =>
    let cs := List.dropWhile jWs cs0
    match cs with
    | [] => none
    | c :: rest =>
      if c = '"' then
        match jStrAux rest with
        | none => none
        | some (key, rem0) =>
          let rem := List.dropWhile jWs rem0
          match rem with
          | [] => none
          | c2 :: rem2 =>
            if c2 = ':' then
              match jVal f rem2 with
              | none => none
              | some (v, rem3) =>
                let rem4 := List.dropWhile jWs rem3
                match rem4 with
                | [] => none
                | c3 :: rem5 =>
                  if c3 = ',' then
                    (jFields f rem5).map (fun p => ((String.mk key, v) :: p.1, p.2))
                  else if c3 = cbrace then some ([(String.mk key, v)], rem5)
                  else none
            else none
      else none

/-- Parse the items of a JSON array after its opening bracket. -/
def jItems : Nat → List Char → Option (List Json × List Char)
  | 0, _ => none
  | Nat.succ f, cs =>
    match jVal f cs with
    | none => none
    | some (v, rem0) =>
      let rem := List.dropWhile jWs rem0
      match rem with
      | [] => none
      | c :: rem2 =>
        if c = ',' then (jItems f rem2).map (fun p => (v :: p.1, p.2))
        else if c = ']' then some ([v], rem2)
        else none

end

/-- Model of Python `json.loads`: parse a full document, allowing trailing
whitespace only. -/
def jsonLoads (s : String) : Option Json :=
  match jVal (s.length + 1) s.data with
  | some (j, rem) => if (List.dropWhile jWs rem).isEmpty then some j else none
  | none => none

/-- Failure of `json.loads` inside `parse_ai_response` (app.py line 163); the
dynamic decode-error text is abstracted. -/
def malformedJsonError : ApiError :=
  ⟨500, "AI response was not valid JSON: decode error"⟩

/-- The unhandled `IndexError` when a fenced reply has no newline
(`cleaned.split("\n", 1)[1]` on app.py line 157), surfaced by FastAPI as a
generic 500. -/
def internalIndexError : ApiError := ⟨500, "Internal Server Error"⟩

/-- Characters after the first newline, if any (`split("\n", 1)[1]`). -/
def afterNlList : List Char → Option (List Char)
  | [] => none
  | c :: cs => if c = '\n' then some cs else afterNlList cs

/-- Characters before the first occurrence of `pat` (`split(pat, 1)[0]`). -/
def beforeSubList (pat : List Char) : List Char → List Char
  | [] => []
  | c :: cs => if listStarts pat (c :: cs) then [] else c :: beforeSubList pat cs

/-- Run `json.loads` and wrap the failure as the source's HTTPException. -/
def jloadsOrErr (s : String) : Except ApiError Json :=
  match jsonLoads s with
  | some j => Except.ok j
  | none => Except.error malformedJsonError

/-- The response extractor of app.py (`parse_ai_response`, lines 154-164):
strip, remove a leading code fence when present, then `json.loads`. -/
def parse_ai_response (content : String) : Except ApiError Json :=
  if pyStartsWith (pyStrip content) "```" = true then
    match afterNlList (pyStrip content).data with
    | none => Except.error internalIndexError
    | some rest =>
      if hasSubList ("```".data) rest = true then
        jloadsOrErr (String.mk (beforeSubList ("```".data) rest))
      else jloadsOrErr (String.mk rest)
  else jloadsOrErr (pyStrip content)

/-- Shape of the `message` key of the Ollama chat envelope as app.py reads it:
absent (so `data.get("message", {})` yields an empty dict), a dict with an
optional `content`, or present but not a dict. -/
inductive MsgField where
  | absent
  | dict (content : Option String)
  | nonDict

/-- The response envelope of the model endpoint as read by app.py's
`call_ollama` (lines 147-148). -/
structure Envelope where
  message : MsgField
  response : Option String

/-- The content app.py extracts from the envelope:
`message.get("content") if isinstance(message, dict) else data.get("response")`,
with a missing `message` key defaulting to the empty dict. -/
def envContent (e : Envelope) : Option String :=
  match e.message with
  | MsgField.absent => none
  | MsgField.dict c => c
  | MsgField.nonDict => e.response

/-- Outcome of the HTTP POST to the model endpoint: a transport-level
`httpx.RequestError`, or a response with its status code, body text and
parsed JSON envelope. -/
inductive FetchOutcome where
  | requestError (msg : String)
  | response (status : Nat) (bodyText : String) (env : Envelope)

/-- Success statuses for `httpx`'s `raise_for_status`. -/
def is2xx (st : Nat) : Bool := decide (200 ≤ st ∧ st < 300)

/-- The error raised by app.py's `call_ollama` when content is empty or
missing (line 150). -/
def noContentError : ApiError := ⟨500, "Ollama returned no content."⟩

/-- The model client of app.py (`call_ollama`, lines 126-151): transport
failures become 502 "Ollama connection failed", non-success statuses become
502 "Ollama error" carrying the response body, an empty or missing content
field becomes a 500, and otherwise the content is handed to
`parse_ai_response`. -/
def call_ollama : FetchOutcome → Except ApiError Json
  | FetchOutcome.requestError msg =>
    Except.error ⟨502, "Ollama connection failed: " ++ msg⟩
  | FetchOutcome.response st body env =>
    if is2xx st = true then
      match envContent env with
      | none => Except.error noContentError
      | some c => if c = "" then Except.error noContentError else parse_ai_response c
    else Except.error ⟨502, "Ollama error: " ++ body⟩

/-- The model client of main.py (`call_ollama`, lines 71-77): a non-200
status becomes a 500 "Ollama error" carrying the body; otherwise the reply is
`r.json().get("response", "")` — an empty or missing field yields the empty
string with no error.  Transport errors are not caught by this variant and
propagate unclassified. -/
def call_ollama_main (status : Nat) (bodyText : String)
    (responseField : Option String) : Except ApiError String :=
  if status ≠ 200 then Except.error ⟨500, "Ollama error: " ++ bodyText⟩
  else Except.ok (responseField.getD "")

/-- Last-wins key lookup in a JSON object member list (Python dict
semantics under `json.loads`). -/
def lookupLast : List (String × Json) → String → Option Json
  | [], _ => none
  | (k', v) :: rest, k =>
    match lookupLast rest k with
    | some r => some r
    | none => if k' = k then some v else none

/-- Python `dict.get` on a parsed JSON object (none on non-objects). -/
def objGet : Json → String → Option Json
  | Json.obj fs, k => lookupLast fs k
  | _, _ => none

/-- Python truthiness of a JSON value. -/
def jsonTruthy : Json → Bool
  | Json.str s => !(s = "")
  | Json.num n => !(n = 0)
  | Json.bool b => b
  | Json.null => false
  | Json.obj fs => !fs.isEmpty
  | Json.arr xs => !xs.isEmpty

/-- The `sql` field handed to the guard: `ai_payload.get("sql", "")`
(app.py line 207). -/
def ask_sql_field (j : Json) : Json := (objGet j "sql").getD (Json.str "")

/-- The chart type of the response: `ai_payload.get("chart_type", "table")`
(app.py line 211) — honored unconditionally, with no check against the
result's columns. -/
def ask_chart_type (j : Json) : Json := (objGet j "chart_type").getD (Json.str "table")

/-- The chart fields of the response:
`ai_payload.get("chart_fields") or {}` (app.py line 212). -/
def ask_chart_fields (j : Json) : Json :=
  match objGet j "chart_fields" with
  | some v => if jsonTruthy v = true then v else Json.obj []
  | none => Json.obj []

/-- The response message: `ai_payload.get("justification") or "Query executed
successfully."` (app.py line 214). -/
def ask_message (j : Json) : Json :=
  match objGet j "justification" with
  | some v => if jsonTruthy v = true then v else Json.str "Query executed successfully."
  | none => Json.str "Query executed successfully."

/-- A pandas DataFrame as `suggest_chart` inspects it: column names with a
numeric-dtype flag, and the row count (`df.shape[0]`). -/
structure PyDataFrame where
  cols : List (String × Bool)
  nRows : Nat

/-- The numeric columns, `df.select_dtypes(include=["number"]).columns`. -/
def numericCols (df : PyDataFrame) : List String :=
  (df.cols.filter (fun p => p.2)).map (fun p => p.1)

/-- The lap/round/season-like column names of `suggest_chart`. -/
def keyNameCols : List String := ["lapnumber", "round", "season"]

/-- The chart heuristic of main.py (`suggest_chart`, lines 90-96).  It takes
no model hint at all: line when a numeric column exists and some column is
named lapnumber/round/season (case-insensitively), bar when a numeric column
exists and the row count is at most 25, else table. -/
def suggest_chart (cols : List String) (df : PyDataFrame) : String :=
  if 1 ≤ (numericCols df).length
      ∧ keyNameCols.any (fun k => (cols.map strLower).contains k) = true then "line"
  else if 1 ≤ (numericCols df).length ∧ df.nRows ≤ 25 then "bar"
  else "table"

/-- Follows the spec's words (section 4.5 steps 5 and 6) for comparison with
the implemented guards: first append an inline limit when no row-limiting
clause is textually present, then unconditionally wrap with an outer
`LIMIT max_rows`. -/
def specGuardBothSteps (maxRows : Nat) (s : String) : String :=
  let stmt := rstripSemi (pyStrip s)
  let limited :=
    if hasWordStr "limit" (strLower stmt) = true then stmt
    else stmt ++ " LIMIT " ++ toString maxRows
  "SELECT * FROM (" ++ limited ++ ") AS safe_view LIMIT " ++ toString maxRows

/-- Engine of a modelled warehouse whose table `big` holds 1000 rows, so the
statement `select * from big limit 1000` legitimately returns 1000 rows. -/
def bigTableEngine : String → List QRow :=
  fun q => if q = "select * from big limit 1000" then List.replicate 1000 [] else []

/-- A trivially succeeding engine, used to instantiate executor parameters. -/
def okEngine : String → Except String (List QRow) := fun _ => Except.ok []

/-- The parsed suggestion expected from the spec's round-trip payload. -/
def roundTripSuggestion : Json :=
  Json.obj [("sql", Json.str "select 1"), ("chart_type", Json.str "bar"),
    ("chart_fields", Json.obj [("x", Json.str "a"), ("y", Json.str "b")]),
    ("justification", Json.str "ok")]

/-! ### Helper lemmas -/

/-- A nonempty result of `rstripList` keeps the head of its input. -/
theorem rstripList_head {p : Char → Bool} {l : List Char} {c : Char} {cs : List Char}
    (h : rstripList p l = c :: cs) : ∃ t, l = c :: t := by
  cases l with
  | nil => simp [rstripList] at h
  | cons x xs =>
    rw [rstripList] at h
    split at h
    · exact absurd h (by simp)
    · injection h with h1 _
      exact ⟨xs, by rw [h1]⟩

/-- The head surviving a `dropWhile` fails the predicate. -/
theorem dropWhile_head_false {p : Char → Bool} {l : List Char} {c : Char} {cs : List Char}
    (h : List.dropWhile p l = c :: cs) : p c = false := by
  induction l with
  | nil => simp [List.dropWhile] at h
  | cons x xs ih =>
    rw [List.dropWhile_cons] at h
    split at h
    · exact ih h
    · rename_i hx
      injection h with h1 _
      subst h1
      simpa using hx

/-- Lowercasing preserves whitespace-ness of a character. -/
theorem lowChar_space (c : Char) : pyIsSpace (lowChar c) = pyIsSpace c := by
  unfold lowChar
  by_cases h0 : c = 'A'
  · subst h0; rfl
  · rw [if_neg h0]
    by_cases h1 : c = 'B'
    · subst h1; rfl
    · rw [if_neg h1]
      by_cases h2 : c = 'C'
      · subst h2; rfl
      · rw [if_neg h2]
        by_cases h3 : c = 'D'
        · subst h3; rfl
        · rw [if_neg h3]
          by_cases h4 : c = 'E'
          · subst h4; rfl
          · rw [if_neg h4]
            by_cases h5 : c = 'F'
            · subst h5; rfl
            · rw [if_neg h5]
              by_cases h6 : c = 'G'
              · subst h6; rfl
              · rw [if_neg h6]
                by_cases h7 : c = 'H'
                · subst h7; rfl
                · rw [if_neg h7]
                  by_cases h8 : c = 'I'
                  · subst h8; rfl
                  · rw [if_neg h8]
                    by_cases h9 : c = 'J'
                    · subst h9; rfl
                    · rw [if_neg h9]
                      by_cases h10 : c = 'K'
                      · subst h10; rfl
                      · rw [if_neg h10]
                        by_cases h11 : c = 'L'
                        · subst h11; rfl
                        · rw [if_neg h11]
                          by_cases h12 : c = 'M'
                          · subst h12; rfl
                          · rw [if_neg h12]
                            by_cases h13 : c = 'N'
                            · subst h13; rfl
                            · rw [if_neg h13]
                              by_cases h14 : c = 'O'
                              · subst h14; rfl
                              · rw [if_neg h14]
                                by_cases h15 : c = 'P'
                                · subst h15; rfl
                                · rw [if_neg h15]
                                  by_cases h16 : c = 'Q'
                                  · subst h16; rfl
                                  · rw [if_neg h16]
                                    by_cases h17 : c = 'R'
                                    · subst h17; rfl
                                    · rw [if_neg h17]
                                      by_cases h18 : c = 'S'
                                      · subst h18; rfl
                                      · rw [if_neg h18]
                                        by_cases h19 : c = 'T'
                                        · subst h19; rfl
                                        · rw [if_neg h19]
                                          by_cases h20 : c = 'U'
                                          · subst h20; rfl
                                          · rw [if_neg h20]
                                            by_cases h21 : c = 'V'
                                            · subst h21; rfl
                                            · rw [if_neg h21]
                                              by_cases h22 : c = 'W'
                                              · subst h22; rfl
                                              · rw [if_neg h22]
                                                by_cases h23 : c = 'X'
                                                · subst h23; rfl
                                                · rw [if_neg h23]
                                                  by_cases h24 : c = 'Y'
                                                  · subst h24; rfl
                                                  · rw [if_neg h24]
                                                    by_cases h25 : c = 'Z'
                                                    · subst h25; rfl
                                                    · rw [if_neg h25]

/-- A successful `listStarts` on a nonempty pattern exposes the head. -/
theorem listStarts_head {a : Char} {as l : List Char}
    (h : listStarts (a :: as) l = true) : ∃ t, l = a :: t := by
  cases l with
  | nil => simp [listStarts] at h
  | cons c cs =>
    rw [listStarts] at h
    simp only [Bool.and_eq_true, beq_iff_eq] at h
    exact ⟨cs, by rw [h.1]⟩

/-- Two patterns with different heads cannot both start the same text. -/
theorem starts_conflict {l p q : List Char} {a b : Char} {ps qs : List Char}
    (hp : p = a :: ps) (hq : q = b :: qs)
    (h1 : listStarts p l = true) (h2 : listStarts q l = true) (hne : ¬ a = b) : False := by
  subst hp; subst hq
  obtain ⟨t1, ht1⟩ := listStarts_head h1
  obtain ⟨t2, ht2⟩ := listStarts_head h2
  rw [ht1] at ht2
  injection ht2 with h3 _
  exact hne h3

/-- A `^\s*select\b` match fails on text that is empty or starts with a
non-space character and does not start with `select`. -/
theorem matchSelect_of_head {u : List Char}
    (hu : u = [] ∨ ∃ c t, u = c :: t ∧ pyIsSpace c = false)
    (h : listStarts "select".data u = false) :
    (listStarts "select".data (List.dropWhile pyIsSpace u)
      && boundaryAfterOk (List.drop 6 (List.dropWhile pyIsSpace u))) = false := by
  rcases hu with rfl | ⟨c, t, rfl, hc⟩
  · decide
  · rw [List.dropWhile_cons_of_neg (by simp [hc])]
    rw [h]
    exact Bool.false_and _

/-- The lowered, normalized statement of the guards is empty or starts with a
non-space character. -/
theorem lowered_stmt_head (s : String) :
    (strLower (rstripSemi (pyStrip s))).data = []
    ∨ ∃ c t, (strLower (rstripSemi (pyStrip s))).data = c :: t ∧ pyIsSpace c = false := by
  cases hr : (rstripSemi (pyStrip s)).data with
  | nil =>
    left
    simp [strLower, hr]
  | cons x xs =>
    right
    refine ⟨lowChar x, xs.map lowChar, by simp [strLower, hr], ?_⟩
    have hx : pyIsSpace x = false := by
      have hr' : rstripList (fun c => c == ';') (pyStrip s).data = x :: xs := hr
      obtain ⟨t, ht⟩ := rstripList_head hr'
      have ht' : rstripList pyIsSpace (List.dropWhile pyIsSpace s.data) = x :: t := ht
      obtain ⟨t2, ht2⟩ := rstripList_head ht'
      exact dropWhile_head_false ht2
    rw [lowChar_space x]
    exact hx

/-- The main.py select-lead regex fails whenever the lowered normalized
statement does not start with `select`. -/
theorem matchSelectLead_false (s : String)
    (h : pyStartsWith (strLower (rstripSemi (pyStrip s))) "select" = false) :
    matchSelectLead (strLower (rstripSemi (pyStrip s))) = false := by
  unfold pyStartsWith at h
  unfold matchSelectLead
  exact matchSelect_of_head (lowered_stmt_head s) h

/-- Shared core of the non-select rejection claim: both guards reject, and
app.py's guard reports the non-select kind on nonempty input. -/
theorem nonselect_aux (n : Nat) (s : String)
    (h : pyStartsWith (strLower (rstripSemi (pyStrip s))) "select" = false) :
    isErr (ensure_safe_sql n s) = true
    ∧ (¬ s = "" → ensure_safe_sql n s = Except.error nonSelectError)
    ∧ isErr (extract_sql_guard s) = true := by
  refine ⟨?_, ?_, ?_⟩
  · unfold ensure_safe_sql
    split_ifs <;> simp_all [isErr]
  · intro hs
    unfold ensure_safe_sql
    rw [if_neg hs, if_pos h]
  · have hm := matchSelectLead_false s h
    unfold extract_sql_guard
    split_ifs <;> simp_all [isErr]

/-! ### Claim C3 -/

/-- C3 (confirmed): every candidate whose normalized, lowercased text does not
begin with `select` (leading whitespace ignored) is rejected by both SQL
guards, with app.py's guard reporting the `NonSelectStatement` kind on every
nonempty candidate; in particular every candidate beginning with one of the
mutating keywords `insert, update, delete, drop, alter, create, truncate` in
any letter case is rejected by both guards. -/
theorem non_select_rejected (n : Nat) (s : String) :
    (pyStartsWith (strLower (rstripSemi (pyStrip s))) "select" = false →
      isErr (ensure_safe_sql n s) = true
      ∧ (¬ s = "" → ensure_safe_sql n s = Except.error nonSelectError)
      ∧ isErr (extract_sql_guard s) = true)
    ∧ (∀ kw, kw ∈ appForbidden →
        pyStartsWith (strLower (rstripSemi (pyStrip s))) kw = true →
        isErr (ensure_safe_sql n s) = true ∧ isErr (extract_sql_guard s) = true) := by
  constructor
  · exact nonselect_aux n s
  · intro kw hkw hst
    have hsel : pyStartsWith (strLower (rstripSemi (pyStrip s))) "select" = false := by
      by_contra hcon
      have htrue : pyStartsWith (strLower (rstripSemi (pyStrip s))) "select" = true := by
        simpa using hcon
      unfold pyStartsWith at htrue hst
      fin_cases hkw
      · exact starts_conflict rfl rfl hst htrue (by decide)
      · exact starts_conflict rfl rfl hst htrue (by decide)
      · exact starts_conflict rfl rfl hst htrue (by decide)
      · exact starts_conflict rfl rfl hst htrue (by decide)
      · exact starts_conflict rfl rfl hst htrue (by decide)
      · exact starts_conflict rfl rfl hst htrue (by decide)
      · exact starts_conflict rfl rfl hst htrue (by decide)
    exact ⟨(nonselect_aux n s hsel).1, (nonselect_aux n s hsel).2.2⟩

/-- Witness for C3 at the concrete candidate `"DROP TABLE x"`. -/
theorem non_select_rejected_witness :
    isErr (ensure_safe_sql 200 "DROP TABLE x") = true
    ∧ ensure_safe_sql 200 "DROP TABLE x" = Except.error nonSelectError
    ∧ isErr (extract_sql_guard "DROP TABLE x") = true := by
  have h := (non_select_rejected 200 "DROP TABLE x").1 (by decide)
  exact ⟨h.1, h.2.1 (by decide), h.2.2⟩

/-! ### Claim C2 -/

/-- C2 counterexample: main.py's guard does not check `truncate` at all, so
the select-leading candidate `"select 1; truncate t"`, which contains the
mutating keyword `truncate`, is accepted (and would be executed); and app.py's
guard rejects the spec's own scenario statement with the non-select kind, not
the mutating-keyword kind. -/
theorem mutating_keyword_rejection_cex :
    extract_sql_guard "select 1; truncate t" = Except.ok "select 1; truncate t LIMIT 200"
    ∧ pyIn "truncate" (strLower (rstripSemi (pyStrip "select 1; truncate t"))) = true
    ∧ ensure_safe_sql 200 "DROP TABLE gold.team_event_summary; select 1"
        = Except.error nonSelectError
    ∧ ¬ nonSelectError = mutatingError := by
  exact ⟨rfl, rfl, rfl, by decide⟩

/-- C2 (amended): every candidate containing one of the seven mutating
keywords as a case-insensitive substring is rejected by app.py's guard and is
never handed to the query executor; the rejection kind is
`MutatingKeywordDetected` exactly when the candidate begins with `select`. -/
theorem mutating_keyword_rejected_not_executed (n : Nat) (s : String)
    (h : appForbidden.any (fun k => pyIn k (strLower (rstripSemi (pyStrip s)))) = true) :
    isErr (ensure_safe_sql n s) = true
    ∧ (∀ (Row : Type) (engine : String → Except String (List Row)),
        (run_ask_sql engine n s).2 = false)
    ∧ (pyStartsWith (strLower (rstripSemi (pyStrip s))) "select" = true →
        ensure_safe_sql n s = Except.error mutatingError) := by
  have he : isErr (ensure_safe_sql n s) = true := by
    unfold ensure_safe_sql
    split_ifs <;> simp_all [isErr]
  refine ⟨he, ?_, ?_⟩
  · intro Row engine
    unfold run_ask_sql
    cases hE : ensure_safe_sql n s with
    | error e => rfl
    | ok g => rw [hE] at he; simp [isErr] at he
  · intro hsel
    have hs : ¬ s = "" := by
      intro hempty
      subst hempty
      exact absurd hsel (by decide)
    unfold ensure_safe_sql
    rw [if_neg hs, if_neg (by simp [hsel]), if_pos h]

/-- Witness for C2's amended theorem at a select-leading candidate containing
`drop`. -/
theorem mutating_keyword_rejected_not_executed_witness :
    ensure_safe_sql 200 "select * from t; drop table u" = Except.error mutatingError
    ∧ (run_ask_sql okEngine 200 "select * from t; drop table u").2 = false := by
  have h := mutating_keyword_rejected_not_executed 200 "select * from t; drop table u"
    (by decide)
  exact ⟨h.2.2 (by decide), h.2.1 QRow okEngine⟩

/-! ### Claim C1 -/

/-- C1 counterexample: main.py's guard leaves a candidate that already
contains a `LIMIT` token unchanged and applies no outer wrap, so on a
warehouse whose table `big` holds 1000 rows the guarded statement
`select * from big limit 1000` returns 1000 rows, exceeding the configured
cap of 200. -/
theorem extract_sql_inner_limit_uncapped :
    extract_sql_guard "select * from big limit 1000"
      = Except.ok "select * from big limit 1000"
    ∧ (bigTableEngine "select * from big limit 1000").length = 1000
    ∧ ¬ (1000 ≤ 200) := by
  refine ⟨rfl, ?_, by decide⟩
  simp [bigTableEngine]

/-- C1 (amended): every statement accepted by app.py's guard is the wrap
`SELECT * FROM (stmt) AS safe_view LIMIT max_rows`, and executing that wrap
over any engine returns at most `max_rows` rows — even when `stmt` contains
its own larger inner `LIMIT`; main.py's guard gives no such bound. -/
theorem ensure_safe_sql_row_cap (n : Nat) (s out : String)
    (h : ensure_safe_sql n s = Except.ok out) :
    ∃ stmt, out = "SELECT * FROM (" ++ stmt ++ ") AS safe_view LIMIT " ++ toString n
      ∧ ∀ (engine : String → List QRow), (evalLimitWrap engine stmt n).length ≤ n := by
  refine ⟨rstripSemi (pyStrip s), ?_, ?_⟩
  · unfold ensure_safe_sql at h
    split_ifs at h
    all_goals first
    | exact Except.noConfusion h
    | (injection h with h1; exact h1.symm)
  · intro engine
    unfold evalLimitWrap
    exact List.length_take_le n _

/-- Witness for C1's amended theorem at the candidate
`"select 1 limit 1000"`, whose inner `LIMIT` exceeds the cap of 200. -/
theorem ensure_safe_sql_row_cap_witness :
    ∃ stmt,
      "SELECT * FROM (select 1 limit 1000) AS safe_view LIMIT 200"
        = "SELECT * FROM (" ++ stmt ++ ") AS safe_view LIMIT " ++ toString 200
      ∧ ∀ (engine : String → List QRow), (evalLimitWrap engine stmt 200).length ≤ 200 :=
  ensure_safe_sql_row_cap 200 "select 1 limit 1000"
    "SELECT * FROM (select 1 limit 1000) AS safe_view LIMIT 200" rfl

/-! ### Claim C5 -/

/-- C5 counterexample: on the accepted candidate `"select 1"`, app.py's guard
produces only the outer wrap with no inline limit appended (differing from the
spec's two-step result), and main.py's guard produces only the inline append
with no outer wrap. -/
theorem guard_not_both_steps_cex :
    ensure_safe_sql 200 "select 1" = Except.ok "SELECT * FROM (select 1) AS safe_view LIMIT 200"
    ∧ specGuardBothSteps 200 "select 1"
        = "SELECT * FROM (select 1 LIMIT 200) AS safe_view LIMIT 200"
    ∧ ¬ ("SELECT * FROM (select 1) AS safe_view LIMIT 200" : String)
        = "SELECT * FROM (select 1 LIMIT 200) AS safe_view LIMIT 200"
    ∧ extract_sql_guard "select 1" = Except.ok "select 1 LIMIT 200"
    ∧ pyIn "safe_view" "select 1 LIMIT 200" = false := by
  exact ⟨rfl, rfl, by decide, rfl, rfl⟩

/-- C5 (amended): app.py's guard applies exactly one enforcement step — the
unconditional outer wrap around the unmodified statement; main.py's guard
applies exactly the other — an inline `LIMIT 200` appended only when no
`limit` token is present, with no wrap. -/
theorem guard_single_enforcement_step :
    (∀ (n : Nat) (s out : String), ensure_safe_sql n s = Except.ok out →
      out = "SELECT * FROM (" ++ rstripSemi (pyStrip s) ++ ") AS safe_view LIMIT "
        ++ toString n)
    ∧ (∀ (s out : String), extract_sql_guard s = Except.ok out →
      out = (if hasWordStr "limit" (strLower (rstripSemi (pyStrip s))) = true
        then rstripSemi (pyStrip s) else rstripSemi (pyStrip s) ++ " LIMIT 200")) := by
  constructor
  · intro n s out h
    unfold ensure_safe_sql at h
    split_ifs at h
    all_goals first
    | exact Except.noConfusion h
    | (injection h with h1; exact h1.symm)
  · intro s out h
    unfold extract_sql_guard at h
    split_ifs at h with h1 h2 h3
    all_goals first
    | exact Except.noConfusion h
    | (rw [if_neg (by simp [h3])]; injection h with h4; exact h4.symm)
    | (rw [if_pos (by simpa using h3)]; injection h with h4; exact h4.symm)

/-- Witness for C5's amended theorem at the accepted candidates `"select 2"`
and `"select 3"`. -/
theorem guard_single_enforcement_step_witness :
    ("SELECT * FROM (select 2) AS safe_view LIMIT 200"
      = "SELECT * FROM (" ++ rstripSemi (pyStrip "select 2") ++ ") AS safe_view LIMIT "
        ++ toString 200)
    ∧ ("select 3 LIMIT 200"
      = (if hasWordStr "limit" (strLower (rstripSemi (pyStrip "select 3"))) = true
        then rstripSemi (pyStrip "select 3") else rstripSemi (pyStrip "select 3") ++ " LIMIT 200")) :=
  ⟨guard_single_enforcement_step.1 200 "select 2"
      "SELECT * FROM (select 2) AS safe_view LIMIT 200" rfl,
    guard_single_enforcement_step.2 "select 3" "select 3 LIMIT 200" rfl⟩

/-! ### Claim C10 -/

/-- C10 (confirmed): app.py's keyword scan matches forbidden keywords as
plain substrings of the lowercased statement, not as delimited words — the
legitimate read-only statement `select created_at from laps` contains
`create` only as a fragment of the identifier `created_at` (no delimited-word
occurrence), yet the guard rejects it with the mutating-keyword kind, and the
/ask pipeline surfaces that rejection without executing anything. -/
theorem keyword_substring_over_rejection :
    pyIn "create" (strLower (rstripSemi (pyStrip "select created_at from laps"))) = true
    ∧ hasWordStr "create" (strLower (rstripSemi (pyStrip "select created_at from laps"))) = false
    ∧ ensure_safe_sql 200 "select created_at from laps" = Except.error mutatingError
    ∧ ∀ (Row : Type) (engine : String → Except String (List Row)),
        run_ask_sql engine 200 "select created_at from laps"
          = (Except.error mutatingError, false) := by
  exact ⟨rfl, rfl, rfl, fun Row engine => rfl⟩

/-! ### Claim C4 -/

/-- C4 counterexample: in the main.py variant, the session used by `/ask` to
execute the guarded statement comes from `connect_ro`, which opens the
warehouse with `read_only=False` — a mode that permits writes, contradicting
the claim that the execution session forbids write operations. -/
theorem connect_ro_read_write : connect_ro_config.readOnly = false := rfl

/-- C4 (amended): app.py's executor opens its session with `read_only=True`
and the session is closed on every exit path (success and execution failure
alike); main.py's `connect_ro` deliberately opens the warehouse read-write,
relying on the textual SELECT-only guard instead. -/
theorem executor_session_readonly_and_closed :
    (∀ (Row : Type) (engine : String → Except String (List Row)) (sql : String),
      (execute_sql engine sql).conn.readOnly = true
      ∧ (execute_sql engine sql).sessionClosed = true)
    ∧ connect_ro_config.readOnly = false := by
  refine ⟨fun Row engine sql => ?_, rfl⟩
  unfold execute_sql
  cases engine sql <;> exact ⟨rfl, rfl⟩

/-! ### Claim C6 -/

/-- C6 counterexample: on a warehouse catalog containing no schemas at all
(where app.py's resolver reports not-found for both layers), main.py's
resolver — whose catalog probes succeed with empty results rather than
raising — still returns the schema pair `("main_silver", "main_gold")`
instead of any not-found signal, so its request proceeds without a
`SchemaUnavailable` failure. -/
theorem detect_schema_no_notfound_cex :
    resolve_schema [] "silver" = none
    ∧ resolve_schema [] "gold" = none
    ∧ detect_schema_prefix (fun _ => false) = ("main_silver", "main_gold") :=
  ⟨rfl, rfl, rfl⟩

/-- C6 (amended): app.py's `resolve_schema` probes `main_<base>` first and
`<base>` second, returns the first candidate present in the catalog, returns
none when neither is present, and the `/ask` schema check fails with the
`SchemaUnavailable` condition when either layer is unresolved (in particular
when neither resolves); main.py's resolver instead falls back to a default
pair and never signals not-found. -/
theorem resolve_schema_probe_order :
    (∀ (catalog : List String) (base : String),
      catalog.contains ("main_" ++ base) = true →
      resolve_schema catalog base = some ("main_" ++ base))
    ∧ (∀ (catalog : List String) (base : String),
      catalog.contains ("main_" ++ base) = false → catalog.contains base = true →
      resolve_schema catalog base = some base)
    ∧ (∀ (catalog : List String) (base : String),
      catalog.contains ("main_" ++ base) = false → catalog.contains base = false →
      resolve_schema catalog base = none)
    ∧ (∀ catalog : List String,
      resolve_schema catalog "silver" = none ∨ resolve_schema catalog "gold" = none →
      ask_schema_check catalog = Except.error schemaUnavailableError) := by
  refine ⟨?_, ?_, ?_, ?_⟩
  · intro catalog base h
    unfold resolve_schema
    rw [if_pos h]
  · intro catalog base h1 h2
    unfold resolve_schema
    rw [if_neg (by simpa using h1), if_pos h2]
  · intro catalog base h1 h2
    unfold resolve_schema
    rw [if_neg (by simpa using h1), if_neg (by simpa using h2)]
  · intro catalog h
    unfold ask_schema_check
    rcases h with h | h
    · rw [h]
      cases resolve_schema catalog "gold" <;> rfl
    · rw [h]
      cases resolve_schema catalog "silver" <;> rfl

/-- Witness for C6's amended theorem on concrete catalogs. -/
theorem resolve_schema_probe_order_witness :
    resolve_schema ["main_silver", "silver"] "silver" = some "main_silver"
    ∧ resolve_schema ["silver"] "silver" = some "silver"
    ∧ resolve_schema [] "silver" = none
    ∧ ask_schema_check [] = Except.error schemaUnavailableError := by
  refine ⟨resolve_schema_probe_order.1 ["main_silver", "silver"] "silver" (by decide),
    resolve_schema_probe_order.2.1 ["silver"] "silver" (by decide) (by decide),
    resolve_schema_probe_order.2.2.1 [] "silver" (by decide) (by decide),
    resolve_schema_probe_order.2.2.2 []
      (Or.inl (resolve_schema_probe_order.2.2.1 [] "silver" (by decide) (by decide)))⟩

/-! ### Claim C7 -/

/-- Every error produced by `jloadsOrErr` carries status 500. -/
theorem jloadsOrErr_status {s : String} {e : ApiError}
    (h : jloadsOrErr s = Except.error e) : e.status = 500 := by
  unfold jloadsOrErr at h
  cases hj : jsonLoads s with
  | some j => rw [hj] at h; exact Except.noConfusion h
  | none => rw [hj] at h; injection h with h1; rw [← h1]; rfl

/-- Every error produced by `parse_ai_response` carries status 500. -/
theorem parse_ai_response_status {c : String} {e : ApiError}
    (h : parse_ai_response c = Except.error e) : e.status = 500 := by
  unfold parse_ai_response at h
  split_ifs at h
  · split at h
    · injection h with h1; rw [← h1]; rfl
    · split_ifs at h
      · exact jloadsOrErr_status h
      · exact jloadsOrErr_status h
  · exact jloadsOrErr_status h

/-- C7 counterexample: in the main.py variant an HTTP 200 response whose
`response` field is empty is not classified as any Model Client failure — it
is returned as a successful empty reply, which then surfaces downstream as the
guard's 400 client-fault rejection rather than a service-unavailable-class
failure. -/
theorem empty_content_not_endpoint_error_cex :
    call_ollama_main 200 "body" (some "") = Except.ok ""
    ∧ extract_sql_guard "" = Except.error mainNonSelectError
    ∧ mainNonSelectError.status = 400
    ∧ ¬ (500 ≤ mainNonSelectError.status) := by
  exact ⟨rfl, rfl, rfl, by decide⟩

/-- C7 (amended): app.py's model client classifies transport failures as a
502 `EndpointUnreachable` error, non-success statuses as a 502
`EndpointError` carrying the endpoint's body, and an empty or missing content
field as a 500; every failure it raises is in the 5xx server-error class; an
HTTP 500 from the endpoint yields the 502 error carrying the endpoint's error
body.  main.py's client maps a non-200 status to a 500 error carrying the
body, and treats empty content as a successful empty reply. -/
theorem model_client_failure_classification :
    (∀ msg, call_ollama (FetchOutcome.requestError msg)
      = Except.error ⟨502, "Ollama connection failed: " ++ msg⟩)
    ∧ (∀ (st : Nat) (body : String) (env : Envelope), is2xx st = false →
      call_ollama (FetchOutcome.response st body env)
        = Except.error ⟨502, "Ollama error: " ++ body⟩)
    ∧ (∀ (st : Nat) (body : String) (env : Envelope), is2xx st = true →
      (envContent env = none ∨ envContent env = some "") →
      call_ollama (FetchOutcome.response st body env) = Except.error noContentError)
    ∧ (∀ (body : String) (env : Envelope),
      call_ollama (FetchOutcome.response 500 body env)
        = Except.error ⟨502, "Ollama error: " ++ body⟩)
    ∧ (∀ (body : String) (r : Option String),
      call_ollama_main 500 body r = Except.error ⟨500, "Ollama error: " ++ body⟩)
    ∧ (∀ (o : FetchOutcome) (e : ApiError), call_ollama o = Except.error e →
      500 ≤ e.status) := by
  refine ⟨fun msg => rfl, ?_, ?_, ?_, fun body r => rfl, ?_⟩
  · intro st body env h
    simp only [call_ollama]
    rw [if_neg (by simp [h])]
  · intro st body env h hc
    simp only [call_ollama]
    rw [if_pos h]
    rcases hc with hc | hc <;> simp [hc]
  · intro body env
    simp only [call_ollama]
    rw [if_neg (by decide)]
  · intro o e h
    cases o with
    | requestError msg =>
      simp only [call_ollama] at h
      injection h with h1
      rw [← h1]
      simp
    | response st body env =>
      simp only [call_ollama] at h
      split_ifs at h with h2
      · split at h
        · injection h with h1; rw [← h1]; decide
        · rename_i c hc
          split_ifs at h with h3
          · injection h with h1; rw [← h1]; decide
          · have := parse_ai_response_status h
            omega
      · injection h with h1; rw [← h1]; simp

/-- Witness for C7's amended theorem at concrete outcomes. -/
theorem model_client_failure_classification_witness :
    call_ollama (FetchOutcome.requestError "refused")
      = Except.error ⟨502, "Ollama connection failed: refused"⟩
    ∧ call_ollama (FetchOutcome.response 500 "boom" ⟨MsgField.absent, none⟩)
      = Except.error ⟨502, "Ollama error: boom"⟩
    ∧ call_ollama (FetchOutcome.response 200 "" ⟨MsgField.dict (some ""), none⟩)
      = Except.error noContentError
    ∧ call_ollama_main 500 "boom" none = Except.error ⟨500, "Ollama error: boom"⟩ := by
  refine ⟨?_, ?_, ?_, ?_⟩
  · exact model_client_failure_classification.1 "refused"
  · exact model_client_failure_classification.2.2.2.1 "boom" ⟨MsgField.absent, none⟩
  · exact model_client_failure_classification.2.2.1 200 "" ⟨MsgField.dict (some ""), none⟩
      (by decide) (Or.inr rfl)
  · exact model_client_failure_classification.2.2.2.2.1 "boom" none

/-! ### Claim C8 -/

/-- C8 (confirmed): parsing the well-formed JSON model output yields exactly
the four fields unchanged — both in the raw parsed object and through the
field extraction app.py's `/ask` applies to build the response. -/
theorem parse_ai_response_roundtrip :
    parse_ai_response "\x7b\"sql\":\"select 1\",\"chart_type\":\"bar\",\"chart_fields\":\x7b\"x\":\"a\",\"y\":\"b\"\x7d,\"justification\":\"ok\"\x7d"
      = Except.ok roundTripSuggestion
    ∧ ask_sql_field roundTripSuggestion = Json.str "select 1"
    ∧ ask_chart_type roundTripSuggestion = Json.str "bar"
    ∧ ask_chart_fields roundTripSuggestion
        = Json.obj [("x", Json.str "a"), ("y", Json.str "b")]
    ∧ ask_message roundTripSuggestion = Json.str "ok" := by
  exact ⟨rfl, rfl, rfl, rfl, rfl⟩

/-! ### Claim C9 -/

/-- A numeric column exists iff `numericCols` is nonempty. -/
theorem numericCols_pos (df : PyDataFrame) :
    1 ≤ (numericCols df).length ↔ ∃ p ∈ df.cols, p.2 = true := by
  rw [show (1 ≤ (numericCols df).length) ↔ (0 < (numericCols df).length) from Iff.rfl]
  rw [List.length_pos_iff_exists_mem]
  constructor
  · rintro ⟨x, hx⟩
    unfold numericCols at hx
    simp only [List.mem_map, List.mem_filter] at hx
    obtain ⟨p, ⟨hp1, hp2⟩, rfl⟩ := hx
    exact ⟨p, hp1, hp2⟩
  · rintro ⟨p, hp1, hp2⟩
    refine ⟨p.1, ?_⟩
    unfold numericCols
    simp only [List.mem_map, List.mem_filter]
    exact ⟨p, ⟨hp1, hp2⟩, rfl⟩

/-- The lap/round/season scan holds iff some column lowers to one of the key
names. -/
theorem anyKey_iff (cols : List String) :
    keyNameCols.any (fun k => (cols.map strLower).contains k) = true
      ↔ ∃ c ∈ cols, strLower c ∈ keyNameCols := by
  constructor
  · intro h
    simp only [List.any_eq_true] at h
    obtain ⟨k, hk, hc⟩ := h
    have hmem : k ∈ cols.map strLower := by simpa using hc
    simp only [List.mem_map] at hmem
    obtain ⟨c, hcmem, rfl⟩ := hmem
    exact ⟨c, hcmem, hk⟩
  · rintro ⟨c, hc, hkc⟩
    simp only [List.any_eq_true]
    refine ⟨strLower c, hkc, ?_⟩
    have : strLower c ∈ cols.map strLower := List.mem_map_of_mem _ hc
    simpa using this

/-- C9 counterexample: app.py honors the model-supplied chart type with no
check at all — with a result whose only column is `team` and a model hint
`line` whose axis fields `foo`/`bar` appear nowhere among the columns, the
response chart type is still `line`, while the claim's fallback (and main.py's
heuristic on that result) gives `table`. -/
theorem chart_hint_honored_without_fields_cex :
    ask_chart_type (Json.obj [("chart_type", Json.str "line"),
        ("chart_fields", Json.obj [("x", Json.str "foo"), ("y", Json.str "bar")])])
      = Json.str "line"
    ∧ (["team"] : List String).contains "foo" = false
    ∧ (["team"] : List String).contains "bar" = false
    ∧ suggest_chart ["team"] ⟨[("team", false)], 1⟩ = "table" := by
  exact ⟨rfl, rfl, rfl, rfl⟩

/-- C9 (amended): main.py's heuristic is characterized by: `line` iff a
numeric column exists and some column name lowers to
lapnumber/round/season, `bar` iff a numeric column exists, the row count is
at most 25 and no such key column exists, `table` otherwise; app.py honors
the model-supplied chart type unconditionally (defaulting to `table` when the
key is absent), never consulting the result's columns. -/
theorem chart_hint_behavior :
    (∀ (cols : List String) (df : PyDataFrame),
      suggest_chart cols df = "line" ↔
        (∃ p ∈ df.cols, p.2 = true) ∧ (∃ c ∈ cols, strLower c ∈ keyNameCols))
    ∧ (∀ (cols : List String) (df : PyDataFrame),
      suggest_chart cols df = "bar" ↔
        (∃ p ∈ df.cols, p.2 = true) ∧ df.nRows ≤ 25
        ∧ ¬ (∃ c ∈ cols, strLower c ∈ keyNameCols))
    ∧ (∀ (cols : List String) (df : PyDataFrame),
      suggest_chart cols df = "table" ↔
        ¬ (∃ p ∈ df.cols, p.2 = true)
        ∨ (¬ (∃ c ∈ cols, strLower c ∈ keyNameCols) ∧ 25 < df.nRows))
    ∧ (∀ (j t : Json), objGet j "chart_type" = some t → ask_chart_type j = t)
    ∧ (∀ j : Json, objGet j "chart_type" = none → ask_chart_type j = Json.str "table") := by
  refine ⟨?_, ?_, ?_, ?_, ?_⟩
  · intro cols df
    have hnum := numericCols_pos df
    have hkey := anyKey_iff cols
    unfold suggest_chart
    split_ifs with h1 h2
    · exact iff_of_true rfl ⟨hnum.mp h1.1, hkey.mp h1.2⟩
    · exact iff_of_false (by decide) (fun hx => h1 ⟨hnum.mpr hx.1, hkey.mpr hx.2⟩)
    · exact iff_of_false (by decide) (fun hx => h1 ⟨hnum.mpr hx.1, hkey.mpr hx.2⟩)
  · intro cols df
    have hnum := numericCols_pos df
    have hkey := anyKey_iff cols
    unfold suggest_chart
    split_ifs with h1 h2
    · exact iff_of_false (by decide) (fun hx => hx.2.2 (hkey.mp h1.2))
    · exact iff_of_true rfl
        ⟨hnum.mp h2.1, h2.2, fun hex => h1 ⟨h2.1, hkey.mpr hex⟩⟩
    · exact iff_of_false (by decide) (fun hx => h2 ⟨hnum.mpr hx.1, hx.2.1⟩)
  · intro cols df
    have hnum := numericCols_pos df
    have hkey := anyKey_iff cols
    unfold suggest_chart
    split_ifs with h1 h2
    · refine iff_of_false (by decide) ?_
      rintro (hna | ⟨hnk, _⟩)
      · exact hna (hnum.mp h1.1)
      · exact hnk (hkey.mp h1.2)
    · refine iff_of_false (by decide) ?_
      rintro (hna | ⟨hnk, hr⟩)
      · exact hna (hnum.mp h2.1)
      · have := h2.2
        omega
    · refine iff_of_true rfl ?_
      by_cases hn : ∃ p ∈ df.cols, p.2 = true
      · right
        refine ⟨fun hex => h1 ⟨hnum.mpr hn, hkey.mpr hex⟩, ?_⟩
        have hle : ¬ df.nRows ≤ 25 := fun hh => h2 ⟨hnum.mpr hn, hh⟩
        omega
      · left
        exact hn
  · intro j t h
    unfold ask_chart_type
    rw [h]
    rfl
  · intro j h
    unfold ask_chart_type
    rw [h]
    rfl

/-- Witness for C9's amended theorem at concrete results and payloads. -/
theorem chart_hint_behavior_witness :
    suggest_chart ["lapnumber"] ⟨[("lapnumber", true)], 40⟩ = "line"
    ∧ suggest_chart ["x"] ⟨[("x", true)], 10⟩ = "bar"
    ∧ ask_chart_type (Json.obj [("chart_type", Json.str "scatter")])
        = Json.str "scatter" := by
  refine ⟨?_, ?_, ?_⟩
  · exact (chart_hint_behavior.1 ["lapnumber"] ⟨[("lapnumber", true)], 40⟩).mpr
      ⟨⟨("lapnumber", true), by simp, rfl⟩, "lapnumber", by simp, by decide⟩
  · exact (chart_hint_behavior.2.1 ["x"] ⟨[("x", true)], 10⟩).mpr
      ⟨⟨("x", true), by simp, rfl⟩, by decide, by decide⟩
  · exact chart_hint_behavior.2.2.2.1 (Json.obj [("chart_type", Json.str "scatter")])
      (Json.str "scatter") rfl
